import Mathlib

/-!
Verification of the core content script of the "Λbstract" wolvesville.com
automation extension (src/unnamed/part_000).  The file contains two revisions
of the same script; the definitions below embed the later revision (the one
holding `determineGameState`, the lobby-dwell timeout and the list-valued
`cancelConditions`), whose logic subsumes the earlier one for all properties
treated here.

Modelling conventions:
* The DOM is an external oracle.  A `Snapshot` records the results of the
  DOM queries the script performs (`document.body.innerText`,
  `document.body.textContent`, the roster query
  `[style*="flex-direction: column"]`, the `textContent` of every `div`, and
  the chat transcript produced by `getMessages`, whose selection heuristic is
  based on rendered bounding boxes and therefore lives outside the DOM data
  model).
* Handlers are embedded as functions from a snapshot (plus the arguments the
  source passes) to the list of dispatch requests they issue, in program
  order.  Waits are recorded in the trace as `wait…` actions; a JavaScript
  `TypeError` (e.g. calling a method on `null`) aborts the handler, which is
  modelled by truncating the trace at that point.
* JavaScript strings are `String`, `null`/`undefined` are `Option`, machine
  integers do not occur (seat numbers stay strings as in the source).
-/

/-! ### Character and string utilities (JS semantics) -/

/-- JS `\s` / `String.prototype.trim` whitespace test (modelled by
`Char.isWhitespace`). -/
def isWS (c : Char) : Bool := c.isWhitespace

/-- JS `\w` word character: ASCII letter, digit or underscore. -/
def isWordChar (c : Char) : Bool := c.isAlphanum || c == '_'

/-- `hasPrefixC hay pat` ↔ `pat` is a leading segment of `hay`. -/
def hasPrefixC : List Char → List Char → Bool
  | _, [] => true
  | [], _ :: _ => false
  | a :: as, b :: bs => a == b && hasPrefixC as bs

/-- `containsSub pat hay`: `pat` occurs contiguously in `hay`
(JS `String.prototype.includes`). -/
def containsSub (pat : List Char) : List Char → Bool
  | [] => hasPrefixC [] pat
  | c :: rest => hasPrefixC (c :: rest) pat || containsSub pat rest

/-- JS `hay.includes(pat)`. -/
def strContains (hay pat : String) : Bool := containsSub pat.data hay.data

/-- `containsSeq hay k1 k2`: some occurrence of `k1` in `hay` is followed
(later, disjointly) by an occurrence of `k2`.  This is exactly when the
unanchored regex `.*k1.*\.png` (with `k2 = ".png"`) tests true. -/
def containsSeq (k1 k2 : List Char) : List Char → Bool
  | [] => hasPrefixC [] k1 && containsSub k2 []
  | c :: rest =>
      (hasPrefixC (c :: rest) k1 && containsSub k2 (List.drop k1.length (c :: rest)))
        || containsSeq k1 k2 rest

/-- Test of the source's image regexes, which all have the shape
`/.*KEY.*\.png/`: the src must contain `KEY` and, after it, `.png`. -/
def regexImgTest (key src : String) : Bool :=
  containsSeq key.data ".png".data src.data

/-- JS `String.prototype.trim` on character lists. -/
def trimChars (l : List Char) : List Char :=
  ((l.dropWhile isWS).reverse.dropWhile isWS).reverse

/-- After the first digit of `/^\d+\s/`: consume further digits, then demand
one whitespace character. -/
def restDigitsSpace : List Char → Bool
  | [] => false
  | c :: rest => if c.isDigit then restDigitsSpace rest else isWS c

/-- JS `/^\d+\s/.test s`: one or more leading digits followed by a
whitespace character. -/
def digitsThenSpace : List Char → Bool
  | [] => false
  | c :: rest => c.isDigit && restDigitsSpace rest

/-- First match of `/\d+/`: the maximal digit run starting at the first
digit, `none` when the string holds no digit. -/
def firstDigitRun : List Char → Option (List Char)
  | [] => none
  | c :: rest =>
      if c.isDigit then some (c :: rest.takeWhile Char.isDigit)
      else firstDigitRun rest

/-- JS `s.match(/\d+/)?.[0] || null` (a digit run is a nonempty string and
hence truthy). -/
def firstNumberMatch (s : String) : Option String :=
  (firstDigitRun s.data).map fun run => String.mk run

/-- Decimal value of a digit string (JS `parseInt(s, 10)` on the 1–2 digit
tokens produced by the chat regex). -/
def parseDigits (s : String) : Nat :=
  s.data.foldl (fun acc c => acc * 10 + (c.toNat - '0'.toNat)) 0

/-- Scanner for `msg.match(/\b\d{1,2}\b/g)`.  `prevIsWord` says whether the
character before the current position is a word character; `acc` holds the
active digit run (reversed); `startOk` records whether that run began at a
word boundary.  A run becomes a token when it is 1–2 digits long, began at a
boundary and ends at one. -/
def digitTokensGo (prevIsWord : Bool) (acc : List Char) (startOk : Bool) :
    List Char → List String
  | [] =>
      if !acc.isEmpty && startOk && acc.length ≤ 2 then [String.mk acc.reverse] else []
  | c :: rest =>
      if c.isDigit then
        if acc.isEmpty then digitTokensGo true [c] (!prevIsWord) rest
        else digitTokensGo true (c :: acc) startOk rest
      else
        (if !acc.isEmpty && startOk && acc.length ≤ 2 && !isWordChar c
         then [String.mk acc.reverse] else [])
          ++ digitTokensGo (isWordChar c) [] false rest

/-- All tokens of `msg.match(/\b\d{1,2}\b/g)`: maximal digit runs of length
one or two delimited by word boundaries (a longer run yields no token, and a
run adjacent to a letter, digit or underscore is rejected by `\b`). -/
def digitTokens (s : String) : List String := digitTokensGo false [] false s.data

/-! ### DOM data model -/

/-- A DOM element as the script observes it: `id` stands for reference
identity (distinct nodes get distinct ids), `text` for `el.textContent`, and
`images` for the `src` attributes of `el.querySelectorAll('img')` in document
order. -/
structure Element where
  id : Nat
  text : String
  images : List String
  deriving DecidableEq, Repr

/-- One DOM snapshot: the results of the queries the script performs.
`messages` is the transcript `getMessages()` extracts (its chat-panel
selection uses rendered bounding-box areas, which live outside the DOM data
model, so the extracted transcript is an oracle field; `none` models the
`null` it returns when no candidate chat rows exist). -/
structure Snapshot where
  /-- `document.body.innerText`. -/
  innerText : String
  /-- `document.body.textContent`. -/
  textContent : String
  /-- Elements returned by `querySelectorAll('[style*="flex-direction: column"]')`. -/
  columnDivs : List Element
  /-- `textContent` of every `div`, in document order. -/
  divTexts : List String
  /-- Result of `getMessages()`. -/
  messages : Option (List String)
  deriving DecidableEq, Repr

/-- `findTextInDocument`: `document.body.textContent.includes(text)`. -/
def findTextInDocument (snap : Snapshot) (text : String) : Bool :=
  strContains snap.textContent text

/-- `gameIsOver()`. -/
def gameIsOver (snap : Snapshot) : Bool :=
  findTextInDocument snap "Continue" ||
  findTextInDocument snap "Play again" ||
  findTextInDocument snap "Victory" ||
  findTextInDocument snap "Defeat" ||
  findTextInDocument snap "Draw"

/-! ### Timer-label parsing (`getLabelBeforeTime`, `isDay`, `isNight`) -/

/-- Tail of the timer regex after the lazy group: `\s*\d{1,2}s$` (whitespace,
then one or two digits, then a literal `s`, then end of string; `\s` and `\d`
are disjoint, so the greedy `\s*` is just `dropWhile`). -/
def timerTail (l : List Char) : Bool :=
  match l.dropWhile isWS with
  | [a, b, c] => a.isDigit && b.isDigit && c == 's'
  | [a, b] => a.isDigit && b == 's'
  | _ => false

/-- Split of `/^([\S\s]*?)\s*\d{1,2}s$/`: the shortest leading group whose
remainder matches the tail (lazy `*?`), as a character list, or `none` when
the whole string has no such split. -/
def timerGroup : List Char → Option (List Char)
  | [] => if timerTail [] then some [] else none
  | c :: rest =>
      if timerTail (c :: rest) then some []
      else (timerGroup rest).map fun g => c :: g

/-- `text.match(/^([\S\s]*?)\s*\d{1,2}s$/)` followed by `match[1].trim()`,
with the source's `text &&` falsiness guard (an empty `textContent` is
skipped before the regex runs). -/
def timerLabelOf (text : String) : Option String :=
  if text = "" then none
  else (timerGroup text.data).map fun g => String.mk (trimChars g)

/-- `getLabelBeforeTime()`: first `div` whose text matches the timer regex
yields the trimmed label; otherwise `null`. -/
def getLabelBeforeTime (snap : Snapshot) : Option String :=
  (snap.divTexts.map timerLabelOf).findSome? id

/-- `isDay()`: the label is strictly equal to `'Discussion'` or `'Voting'`. -/
def isDay (snap : Snapshot) : Bool :=
  match getLabelBeforeTime snap with
  | some l => l == "Discussion" || l == "Voting"
  | none => false

/-- `isNight()`: the label is strictly equal to the empty string (`null`
compares unequal to `''` under `===`). -/
def isNight (snap : Snapshot) : Bool :=
  match getLabelBeforeTime snap with
  | some l => l == ""
  | none => false

/-! ### Role classification (`getPlayerRole`) -/

/-- `roleMap`, in JS object-key insertion order (all keys are non-numeric
strings, so `Object.keys` preserves this order). -/
def roleMapTable : List (String × String) :=
  [("juniorwerewolf", "Junior Werewolf"),
   ("junior_werewolf", "Junior Werewolf"),
   ("split_wolf", "Split Wolf"),
   ("splitwolf", "Split Wolf"),
   ("wolf", "Wolf"),
   ("priest", "Priest"),
   ("vigilante", "Shooter"),
   ("gunner", "Shooter")]

/-- The `for … of Object.keys(roleMap)` loop with its `break`: the first key
contained in the filename wins; the initial value `'Other'` survives when no
key matches. -/
def roleLookupLoop (filename : String) : List (String × String) → String
  | [] => "Other"
  | kv :: rest =>
      if strContains filename kv.1 then kv.2 else roleLookupLoop filename rest

/-- `getPlayerRole(roleImageFilename)`: `'Unknown'` on a falsy argument
(`undefined`, `null` or the empty string), otherwise the table lookup. -/
def getPlayerRole : Option String → String
  | none => "Unknown"
  | some f => if f = "" then "Unknown" else roleLookupLoop f roleMapTable

/-- `WOLF_ROLES = new Set(['Wolf', 'Junior Werewolf', 'Split Wolf'])`. -/
def WOLF_ROLES : List String := ["Wolf", "Junior Werewolf", "Split Wolf"]

/-- `WOLF_ROLES.has(role)` on a string. -/
def isWolfRole (role : String) : Bool := WOLF_ROLES.contains role

/-- `WOLF_ROLES.has(x)` on a nullable role (`has(null)` is `false`). -/
def isWolfRoleOpt : Option String → Bool
  | none => false
  | some r => isWolfRole r

/-! ### Page-state extraction (`inGame` preamble) -/

/-- `PlayerInfo` as `inGame` builds it.  Seat numbers stay strings, as in
the source (results of `match(/\d+/)`). -/
structure PlayerInfo where
  name : String
  number : Option String
  role : String
  coupleNumber1 : Option String
  coupleRole1 : Option String
  coupleNumber2 : Option String
  coupleRole2 : Option String
  deriving DecidableEq, Repr

/-- Filename of an image src: the part after the last `/` (both the
`parts[parts.length - 1]` of `src.split('/')` in `inGame` and
`src.slice(src.lastIndexOf('/') + 1)` in the night handler compute the
suffix after the last slash, the whole string when there is none). -/
def filenameOf (src : String) : String :=
  String.mk ((src.data.reverse.takeWhile fun c => c != '/').reverse)

/-- `allPlayerElements`: roster candidates whose trimmed text matches
`/^\d+\s/`. -/
def allPlayersOf (snap : Snapshot) : List Element :=
  snap.columnDivs.filter fun el => digitsThenSpace (trimChars el.text.data)

/-- `loverElements`: roster entries showing the cupid pairing sticker. -/
def loverElementsOf (snap : Snapshot) : List Element :=
  (allPlayersOf snap).filter fun el =>
    el.images.any fun s => strContains s "cupid_select_lovers_sticker_small"

/-- `loverElements.filter(el => !el.textContent.includes(myName))` (the
source evaluates this same pure filter twice; it is defined once here). -/
def nonMeLovers (snap : Snapshot) (myName : String) : List Element :=
  (loverElementsOf snap).filter fun el => !(strContains el.text myName)

/-- `loverElements.filter(el => el.textContent.includes(myName))`. -/
def meLovers (snap : Snapshot) (myName : String) : List Element :=
  (loverElementsOf snap).filter fun el => strContains el.text myName

/-- `while (coupleElements.length < 2) coupleElements.push(null)`. -/
def padTo2 : List Element → List (Option Element)
  | [] => [none, none]
  | [a] => [some a, none]
  | a :: b :: rest => (a :: b :: rest).map some

/-- `coupleElements` as handed to the phase handlers. -/
def coupleElementsOf (snap : Snapshot) (myName : String) : List (Option Element) :=
  padTo2 (nonMeLovers snap myName)

/-- `getPlayerImageFilenames` applied to one element. -/
def imageFilenames (el : Element) : List String := el.images.map filenameOf

/-- `myImageSets` (the `playerImages` argument of `inGameDay`). -/
def myImageSets (snap : Snapshot) (myName : String) : List (List String) :=
  (meLovers snap myName).map imageFilenames

/-- `coupleImageSets`. -/
def coupleImageSets (snap : Snapshot) (myName : String) : List (List String) :=
  (nonMeLovers snap myName).map imageFilenames

/-- The backward walk of `extractRoleImage` on the reversed filename list:
skip decorations (`vote_day`, `hand-skin`, `cupid`), return the first other
filename; walking past the front of the list (`set[-1]`) yields
`undefined`. -/
def roleImageWalk : List String → Option String
  | [] => none
  | f :: rest =>
      if strContains f "vote_day" || strContains f "hand-skin" || strContains f "cupid"
      then roleImageWalk rest
      else some f

/-- `extractRoleImage` on one image set. -/
def extractRoleImage (set : List String) : Option String :=
  roleImageWalk set.reverse

/-- `myRoleImages`. -/
def myRoleImages (snap : Snapshot) (myName : String) : List (Option String) :=
  (myImageSets snap myName).map extractRoleImage

/-- `coupleRoleImages`. -/
def coupleRoleImages (snap : Snapshot) (myName : String) : List (Option String) :=
  (coupleImageSets snap myName).map extractRoleImage

/-- `getPlayerNumber(el)`: `null` for a missing element, else the first
`/\d+/` match of its text (`|| null` turns a failed match into `null`). -/
def getPlayerNumber : Option Element → Option String
  | none => none
  | some el => firstNumberMatch el.text

/-- `getRoleFromImage(img)`: `img ? getPlayerRole(img) : null` — any falsy
filename (`undefined` from an exhausted walk or empty index, or `''`) maps
to `null`, bypassing `getPlayerRole`. -/
def getRoleFromImage : Option String → Option String
  | none => none
  | some s => if s = "" then none else some (getPlayerRole (some s))

/-- The `playerInfo` object `inGame` assembles from a snapshot. -/
def buildPlayerInfo (snap : Snapshot) (myName : String) : PlayerInfo :=
  { name := myName
    number := getPlayerNumber ((allPlayersOf snap).find? fun el => strContains el.text myName)
    role := getPlayerRole (((myRoleImages snap myName)[0]?).join)
    coupleNumber1 := getPlayerNumber (((coupleElementsOf snap myName)[0]?).join)
    coupleRole1 := getRoleFromImage (((coupleRoleImages snap myName)[0]?).join)
    coupleNumber2 := getPlayerNumber (((coupleElementsOf snap myName)[1]?).join)
    coupleRole2 := getRoleFromImage (((coupleRoleImages snap myName)[1]?).join) }

/-! ### Dispatch requests

Every click/type helper ultimately asks the background collaborator for a
synthetic input.  A trace records these requests in program order; the
element-resolution inside a helper (tabindex lookup, depth tie-breaks,
geometry) happens in the dispatcher, so an `Act` names the request the
policy layer issued. -/

/-- One dispatch request (or suspension) issued by a handler. -/
inductive Act where
  /-- `click(element)` on a concrete resolved element. -/
  | clickElem (e : Element)
  /-- `clickElementByImage(regex)` — click the clickable holding an image
  matching the named pattern key. -/
  | clickByImage (key : String)
  /-- `clickElementByImageInElement(container, regex)`. -/
  | clickByImageIn (container : Element) (key : String)
  /-- `clickOutermostElement(container)` — outermost-click on a roster row. -/
  | clickOutermost (container : Element)
  /-- The chat write: native textarea value setter plus `input`/`change`
  events, with the value it sets. -/
  | chatSet (msg : String)
  /-- `waitForImageInDOM(key, …)`. -/
  | waitImage (key : String)
  /-- `waitForImageCountInDOM(key, count, …)`. -/
  | waitImageCount (key : String) (count : Nat)
  /-- `waitForTextInDOM(text, …)`. -/
  | waitText (text : String)
  /-- `waitForExactText(text, …)`. -/
  | waitExactText (text : String)
  deriving DecidableEq, Repr

/-- Requests that make the page receive a synthetic click. -/
def Act.isClick : Act → Bool
  | .clickElem _ | .clickByImage _ | .clickByImageIn _ _ | .clickOutermost _ => true
  | _ => false

/-- Requests that write into the chat input. -/
def Act.isChat : Act → Bool
  | .chatSet _ => true
  | _ => false

/-- The vote-marker count carried by a `waitImageCount` request. -/
def getWaitCount : Act → Option Nat
  | .waitImageCount _ c => some c
  | _ => none

/-- The textarea native value setter coerces `null` to the empty string
(WebIDL `LegacyNullToEmptyString` on `HTMLTextAreaElement.value`). -/
def setterStr : Option String → String
  | none => ""
  | some s => s

/-- A template literal stringifies `null` as `"null"`. -/
def jsTemplate : Option String → String
  | none => "null"
  | some s => s

/-! ### Day phase (`inGameDay`, `shooterAction`) -/

/-- The `abilities` table of the villager branch: trigger and action image
patterns per role, `undefined` for any other role. -/
def abilityFor : String → Option (String × String)
  | "Priest" => some ("priest_holy_water", "priest_holy_water")
  | "Shooter" => some ("gunner_bullet", "gunner_voting_shoot")
  | _ => none

/-- `mentionedNumbers?.some(num => num == playerInfo.number)`: all 1–2 digit
tokens of the transcript, compared against the own seat string (loose `==`
on two strings is string equality; `null` compares unequal to any string;
a `null` transcript short-circuits to false). -/
def mentionedOwnNumber (snap : Snapshot) (pi : PlayerInfo) : Bool :=
  match snap.messages with
  | none => false
  | some msgs => ((msgs.map digitTokens).flatten).any fun t => pi.number == some t

/-- `shooterAction`: recursive search for a voted, non-lover, non-self
target, raising the wanted vote-marker count by one per retry and giving up
past 4.  `coupleElements.includes(el)` is reference equality, modelled by
`Element` equality (ids stand for identity). -/
def shooterAction (snap : Snapshot) (pi : PlayerInfo)
    (coupleElements : List (Option Element)) (allPlayerElements : List Element)
    (voteMarkersToFind : Nat) : List Act :=
  if _h : voteMarkersToFind > 4 then []
  else
    Act.waitImageCount "vote_day_selected" voteMarkersToFind ::
    if gameIsOver snap then []
    else
      Act.clickByImage "gunner_bullet" ::
      match allPlayerElements.find? (fun el =>
          el.images.any (fun src => regexImgTest "vote_day_selected" src)
          && !(coupleElements.contains (some el))
          && !(strContains el.text pi.name)) with
      | some target => [Act.clickByImageIn target "gunner_voting_shoot"]
      | none => shooterAction snap pi coupleElements allPlayerElements (voteMarkersToFind + 1)
  termination_by 5 - voteMarkersToFind
  decreasing_by omega

/-- `inGameDay`.  The handler re-reads the page during waits; the embedding
evaluates re-checks against the entry snapshot (static-snapshot model).  In
the wolf-coupled branch a `null`/`undefined` `targetLover` throws a
`TypeError` at the `targetLover.textContent` log call, aborting the handler
before any request — modelled by the `none => []` case. -/
def inGameDay (snap : Snapshot) (pi : PlayerInfo)
    (coupleElements : List (Option Element)) (playerImages : List (List String))
    (allPlayerElements : List Element) : List Act :=
  if gameIsOver snap then []
  else
    let isWolfCoupled := isWolfRoleOpt pi.coupleRole1 || isWolfRoleOpt pi.coupleRole2
    if !isWolfCoupled then
      if isWolfRole pi.role then
        if mentionedOwnNumber snap pi then []
        else if gameIsOver snap then []
        else [Act.chatSet (setterStr pi.number), Act.clickByImage "icon_send"]
      else
        match abilityFor pi.role with
        | none => []
        | some ab =>
            Act.waitImage "vote_day_selected" ::
            if gameIsOver snap then []
            else
              Act.clickByImage ab.1 ::
              match allPlayerElements.find? (fun p =>
                  p.images.any fun src => regexImgTest "vote_day_selected" src) with
              | some votedPlayer => [Act.clickByImageIn votedPlayer ab.2]
              | none => []
    else
      let roleActions : List Act :=
        if pi.role = "Priest" then
          Act.clickByImage "priest_holy_water" ::
          match allPlayerElements.find? (fun p =>
              p.images.any fun src => regexImgTest "priest_holy_water" src) with
          | some votedPlayer => [Act.clickByImageIn votedPlayer "priest_holy_water"]
          | none => []
        else if pi.role = "Shooter" then
          shooterAction snap pi coupleElements allPlayerElements 2
        else []
      let alreadyVotedForCouple := playerImages.any fun imgSet =>
        imgSet.any fun img => strContains img "cupid"
      if !alreadyVotedForCouple then
        match (if isWolfRoleOpt pi.coupleRole1
               then (coupleElements[0]?).join
               else (coupleElements[1]?).join) with
        | none => []
        | some targetLover => Act.clickOutermost targetLover :: roleActions
      else roleActions

/-! ### Night phase (`inGameNight`) -/

/-- `sendMessageAndAct(message, targetElement)`: chat write + send click,
then an outermost-click on the target unless a partner is the Priest (the
Junior Werewolf clicks regardless).  `message` is nullable because the wolf
branch passes `partnerNumber` through unstringified. -/
def sendMessageAndAct (snap : Snapshot) (pi : PlayerInfo)
    (message : Option String) (targetElement : Option Element) : List Act :=
  if gameIsOver snap then []
  else
    Act.chatSet (setterStr message) ::
    Act.clickByImage "icon_send" ::
    match targetElement with
    | some t =>
        if (pi.coupleRole1 ≠ some "Priest" && pi.coupleRole2 ≠ some "Priest")
            || pi.role == "Junior Werewolf"
        then [Act.clickOutermost t] else []
    | none => []

/-- The deferred (`setTimeout`) part of `handleWolfTagging`: re-read chat,
take the first 1–2 digit token that is not the own seat or a partner seat,
and click the selection-marker control on that seat's roster row.  A nullish
transcript short-circuits; seat `0` or an out-of-range seat indexes
`allPlayerElements` at `-1`/`undefined` and throws inside the callback, so
no click is issued; a row without the marker image leaves `targetImage`
undefined and `?.closest` short-circuits. -/
def taggingDeferred (snap : Snapshot) (pi : PlayerInfo)
    (allPlayerElements : List Element) (marker : String) : List Act :=
  match snap.messages with
  | none => []
  | some msgs =>
      let nonLoverNumbers : List (Option String) :=
        [pi.number, pi.coupleNumber1, pi.coupleNumber2]
      match ((msgs.map digitTokens).flatten.filter
          fun num => !(nonLoverNumbers.contains (some num)))[0]? with
      | none => []
      | some taggedNumber =>
          let seat := parseDigits taggedNumber
          if seat = 0 then []
          else
            match allPlayerElements[seat - 1]? with
            | none => []
            | some targetRow =>
                if targetRow.images.any (fun src => regexImgTest marker src)
                then [Act.clickByImageIn targetRow marker]
                else []

/-- `handleWolfTagging(selectionMarkerRegex)` for Junior Werewolf and Split
Wolf (the marker key names the role-specific selection icon). -/
def handleWolfTagging (snap : Snapshot) (pi : PlayerInfo)
    (coupleElements : List (Option Element)) (allPlayerElements : List Element)
    (marker : String) : List Act :=
  let areBothPartnersWolves := isWolfRoleOpt pi.coupleRole1 && isWolfRoleOpt pi.coupleRole2
  let isSoloWolfCoupled := isWolfRoleOpt pi.coupleRole1 && pi.coupleRole2 == none
  if areBothPartnersWolves || isSoloWolfCoupled then []
  else if gameIsOver snap then []
  else
    Act.waitText "25s" ::
    if gameIsOver snap || findTextInDocument snap "Voting" then []
    else
      let isPartnerAWolf := !(isWolfRoleOpt pi.coupleRole1)
      let message := "Who? Mine " ++
        jsTemplate (if isPartnerAWolf then pi.coupleNumber1 else pi.coupleNumber2)
      let targetElement :=
        (if isPartnerAWolf then coupleElements[0]? else coupleElements[1]?).join
      sendMessageAndAct snap pi (some message) targetElement ++
      Act.waitExactText "5s" ::
      if gameIsOver snap || findTextInDocument snap "Voting" then []
      else
        Act.clickByImage marker ::
        taggingDeferred snap pi allPlayerElements marker ++
        [Act.waitText "Voting"]

/-- The wolf branch's per-row role image: walk the row's image srcs from the
end, skipping `vote_day`, `vote_werewolves` and `hand-skin` srcs, and take
the filename of the first other src; when every image is skipped the
`roleImage` variable keeps its initial `''`. -/
def nightRoleImageWalk : List String → String
  | [] => ""
  | src :: rest =>
      if strContains src "vote_day" || strContains src "vote_werewolves"
          || strContains src "hand-skin"
      then nightRoleImageWalk rest
      else filenameOf src

/-- `roleImage` for one roster row in the night wolf branch. -/
def nightRoleImage (el : Element) : String := nightRoleImageWalk el.images.reverse

/-- Rows the Junior-Werewolf correction loop reacts to: the row's role image
resolves to Junior Werewolf and the row shows a `vote_werewolves_voter`
marker. -/
def jwCorrectionRows (allPlayerElements : List Element) : List Element :=
  allPlayerElements.filter fun el =>
    (nightRoleImage el != "" && getPlayerRole (some (nightRoleImage el)) == "Junior Werewolf")
    && el.images.any fun src => strContains src "vote_werewolves_voter"

/-- `inGameNight`.  As in `inGameDay`, re-checks during waits read the entry
snapshot.  In the wolf branch a `null` `partnerElement` makes the correction
loop's `clickOutermostElement(null)` throw, aborting the handler before the
final wait — modelled by the truncating `none` case. -/
def inGameNight (snap : Snapshot) (pi : PlayerInfo)
    (coupleElements : List (Option Element)) (allPlayerElements : List Element) :
    List Act :=
  if gameIsOver snap then []
  else if pi.role = "Wolf" then
    Act.waitText "25s" ::
    if gameIsOver snap || findTextInDocument snap "Voting" then []
    else if (isWolfRoleOpt pi.coupleRole1 && isWolfRoleOpt pi.coupleRole2)
        || (isWolfRoleOpt pi.coupleRole1 && pi.coupleRole2 == none) then []
    else
      let isPriestCoupled := pi.coupleRole1 == some "Priest" || pi.coupleRole2 == some "Priest"
      let isPartnerAWolf := !(isWolfRoleOpt pi.coupleRole1)
      let partnerNumber := if isPartnerAWolf then pi.coupleNumber1 else pi.coupleNumber2
      let partnerElement :=
        (if isPartnerAWolf then coupleElements[0]? else coupleElements[1]?).join
      sendMessageAndAct snap pi
        (if isPriestCoupled then some (jsTemplate partnerNumber ++ " priest") else partnerNumber)
        partnerElement ++
      Act.waitExactText "5s" ::
      if gameIsOver snap || findTextInDocument snap "Voting" then []
      else
        if isPriestCoupled then [Act.waitText "Voting"]
        else
          match partnerElement with
          | some p =>
              (jwCorrectionRows allPlayerElements).map (fun _ => Act.clickOutermost p)
                ++ [Act.waitText "Voting"]
          | none =>
              if (jwCorrectionRows allPlayerElements).isEmpty
              then [Act.waitText "Voting"] else []
  else if pi.role = "Junior Werewolf" then
    handleWolfTagging snap pi coupleElements allPlayerElements "junior_werewolf_selection_marker"
  else if pi.role = "Split Wolf" then
    handleWolfTagging snap pi coupleElements allPlayerElements "splitwolf_bind"
  else []

/-- `inGame(myName)`: build `playerInfo` and dispatch on `isDay`/`isNight`. -/
def inGame (snap : Snapshot) (myName : String) : List Act :=
  let pi := buildPlayerInfo snap myName
  if isDay snap then
    inGameDay snap pi (coupleElementsOf snap myName) (myImageSets snap myName)
      (allPlayersOf snap)
  else if isNight snap then
    inGameNight snap pi (coupleElementsOf snap myName) (allPlayersOf snap)
  else []

/-! ### `waitForCondition` -/

/-- The `cancelConditions` parameter: absent, a single text, or an array of
texts. -/
inductive CancelArg where
  | absent
  | single (s : String)
  | several (l : List String)
  deriving DecidableEq, Repr

/-- `cancelConditions ? (Array.isArray(cancelConditions) ? cancelConditions
: [cancelConditions]) : []` — the outer test is JS truthiness, so a single
empty-string cancel text (falsy) normalizes to the empty list, while an
array argument (truthy even when empty) passes through unchanged. -/
def normalizeCancel : CancelArg → List String
  | .absent => []
  | .single s => if s = "" then [] else [s]
  | .several l => l

/-- One poll's cancel test: `const foundCancelText =
cancelTexts.find(text => pageText.includes(text)); if (foundCancelText) …` —
the FIRST listed text contained in the page text must itself be truthy.  An
empty string is contained in every page text, so when it precedes any other
match `find` returns it and the falsy result disables cancellation. -/
def cancelHit (cancelTexts : List String) (pageText : String) : Bool :=
  match cancelTexts.find? (fun t => strContains pageText t) with
  | some t => !(t == "")
  | none => false

/-- The polling loop of `waitForCondition`, as a function of the poll index
`k`.  `cond k` is the `conditionFn()` result at the `k`-th check (`none` for
falsy), `pageText k` the `document.body.innerText` read there, and `time k`
the elapsed `Date.now() - startTime`.  The result is `some (r, k)` when the
promise resolves at poll `k` with value `r`; `fuel` bounds the recursion and
`none` marks exhaustion (shown unreachable for strictly advancing clocks).
Per source order, the predicate is checked first, then the cancel texts
(guarded by nonemptiness, and cancelling only on a truthy found text), then
the timeout. -/
def wfcAux {A : Type} (cond : Nat → Option A) (cancelTexts : List String)
    (pageText : Nat → String) (time : Nat → Nat) (timeout : Nat) :
    Nat → Nat → Option (Option A × Nat)
  | 0, _ => none
  | fuel + 1, k =>
      match cond k with
      | some r => some (some r, k)
      | none =>
          if 0 < cancelTexts.length && cancelHit cancelTexts (pageText k) then
            some (none, k)
          else if timeout ≤ time k then
            some (none, k)
          else
            wfcAux cond cancelTexts pageText time timeout fuel (k + 1)

/-- `waitForCondition(conditionFn, timeout, interval, cancelConditions)`.
The poll clock `time` subsumes `interval`: `time k` is the elapsed time at
the `k`-th check (`time 0 = 0`, the first check being synchronous; with
ideal timers `time k = k * interval`).  `timeout + 1` polls suffice for any
strictly advancing millisecond clock. -/
def waitForCondition {A : Type} (cond : Nat → Option A) (timeout : Nat)
    (cancelConditions : CancelArg) (pageText : Nat → String) (time : Nat → Nat) :
    Option (Option A × Nat) :=
  wfcAux cond (normalizeCancel cancelConditions) pageText time timeout (timeout + 1) 0

/-! ### State classification and main loop (`determineGameState`, lobby dwell) -/

/-- The `GameState` enumeration. -/
inductive GameState where
  | UNKNOWN | LOBBY | ROLE_SELECTION | IN_GAME | POST_GAME
  | CUSTOM | HOME_SCREEN | GAME_SCREEN
  deriving DecidableEq, Repr

/-- `determineGameState()`: the ordered cascade of `pageText.includes`
checks on `document.body.innerText`. -/
def determineGameState (snap : Snapshot) : GameState :=
  let pageText := snap.innerText
  if strContains pageText "Continue" then .POST_GAME
  else if (strContains pageText "Welcome to the werewolves chat."
      || strContains pageText "Voting") && !gameIsOver snap then .IN_GAME
  else if strContains pageText "SELECT A ROLE"
      || strContains pageText "Team: You belong to" then .ROLE_SELECTION
  else if strContains pageText "CREATE GAME" then .CUSTOM
  else if strContains pageText "CUSTOM GAME" then .GAME_SCREEN
  else if strContains pageText "INVENTORY" then .HOME_SCREEN
  else if strContains pageText "START GAME" && strContains pageText "INVITE" then .LOBBY
  else .UNKNOWN

/-- `LOBBY_TIMEOUT = 2 * 60 * 1000`. -/
def LOBBY_TIMEOUT : Nat := 2 * 60 * 1000

/-- The lobby-dwell logic at the top of `main()` for one cycle: given the
stored `lobbyEntryTimestamp` and the cycle's classification and `Date.now()`,
return the updated timestamp and whether `location.reload()` was called. -/
def mainDwell (ts : Option Nat) (snap : Snapshot) (now : Nat) : Option Nat × Bool :=
  if determineGameState snap = GameState.LOBBY then
    match ts with
    | none => (some now, false)
    | some t0 =>
        if LOBBY_TIMEOUT < now - t0 then (some t0, true) else (some t0, false)
  else (none, false)

/-- Run of the dwell logic over consecutive main-loop cycles.  A fired
`location.reload()` navigates the page, which destroys the content script
together with its module state, so the run ends there (the reloaded page
starts a fresh script with `lobbyEntryTimestamp = null`); the returned list
holds the `now` values at which a reload fired. -/
def runDwell (ts : Option Nat) : List (Snapshot × Nat) → List Nat
  | [] => []
  | (snap, now) :: rest =>
      let step := mainDwell ts snap now
      if step.2 then [now] else runDwell step.1 rest

/-! ### Concrete snapshots and records used by witnesses -/

/-- The operating player's roster row in the examples (no pairing sticker,
so the own role resolves through an empty image-set list). -/
def exMyRow : Element := ⟨0, "1 Hero", []⟩

/-- A paired roster row whose only image is the cupid pairing sticker: the
seat parses but the role-icon walk exhausts the list. -/
def exStickerOnlyRow : Element := ⟨1, "3 Bob", ["a/cupid_select_lovers_sticker_small.png"]⟩

/-- An in-game snapshot holding the sticker-only paired row. -/
def exSnapRoleGap : Snapshot :=
  { innerText := "Welcome to the werewolves chat."
    textContent := "Welcome to the werewolves chat."
    columnDivs := [exMyRow, exStickerOnlyRow]
    divTexts := ["25s"]
    messages := none }

/-- A wolf partner's roster row. -/
def exWolfRow : Element := ⟨10, "2 Alice", ["x/cupid_select_lovers_sticker_small.png", "x/werewolf.png"]⟩

/-- A non-wolf partner's roster row. -/
def exVillagerRow : Element := ⟨11, "3 Bob", ["x/cupid_select_lovers_sticker_small.png", "x/villager.png"]⟩

/-- A plain in-game snapshot (no game-over text). -/
def exSnapInGame : Snapshot :=
  { innerText := "in game", textContent := "in game",
    columnDivs := [], divTexts := [], messages := none }

/-- Operating player coupled to a Wolf (partner 1) and a villager
(partner 2), own role without a day ability. -/
def exPiWolfCoupled : PlayerInfo :=
  { name := "Hero", number := some "1", role := "Other",
    coupleNumber1 := some "2", coupleRole1 := some "Wolf",
    coupleNumber2 := some "3", coupleRole2 := some "Other" }

/-- An uncoupled wolf with seat 7. -/
def exPiWolf7 : PlayerInfo :=
  { name := "Hero", number := some "7", role := "Wolf",
    coupleNumber1 := none, coupleRole1 := none,
    coupleNumber2 := none, coupleRole2 := none }

/-- An uncoupled Shooter. -/
def exPiShooter : PlayerInfo :=
  { name := "Hero", number := some "7", role := "Shooter",
    coupleNumber1 := none, coupleRole1 := none,
    coupleNumber2 := none, coupleRole2 := none }

/-- A snapshot whose chat transcript mentions seat 7. -/
def exSnapMention : Snapshot :=
  { innerText := "", textContent := "", columnDivs := [], divTexts := [],
    messages := some ["kill 7 now"] }

/-- A snapshot whose chat transcript mentions other seats only (`77` is a
single two-digit token, not a mention of seat 7). -/
def exSnapNoMention : Snapshot :=
  { innerText := "", textContent := "", columnDivs := [], divTexts := [],
    messages := some ["kill 8 now", "77 maybe"] }

/-- A finished-game snapshot. -/
def exSnapVictory : Snapshot :=
  { innerText := "Victory", textContent := "Victory",
    columnDivs := [], divTexts := [], messages := none }

/-- A lobby snapshot. -/
def exSnapLobby : Snapshot :=
  { innerText := "START GAME INVITE", textContent := "START GAME INVITE",
    columnDivs := [], divTexts := [], messages := none }

/-! ### Helper lemmas -/

/-- Membership survives `dropWhile`. -/
theorem mem_of_mem_dropWhile {α : Type} {p : α → Bool} {c : α} :
    ∀ {l : List α}, c ∈ l.dropWhile p → c ∈ l := by
  intro l h
  induction l with
  | nil => simp [List.dropWhile] at h
  | cons a rest ih =>
      rw [List.dropWhile] at h
      by_cases hp : p a
      · simp only [hp] at h
        exact List.mem_cons_of_mem a (ih h)
      · simp only [Bool.not_eq_true] at hp
        simp only [hp] at h
        exact h

/-- Membership survives trimming. -/
theorem mem_of_mem_trimChars {c : Char} {l : List Char} (h : c ∈ trimChars l) :
    c ∈ l := by
  unfold trimChars at h
  rw [List.mem_reverse] at h
  have h2 := mem_of_mem_dropWhile h
  rw [List.mem_reverse] at h2
  exact mem_of_mem_dropWhile h2

/-- A string passing `/^\d+\s/` holds a digit. -/
theorem digitsThenSpace_has_digit {l : List Char} (h : digitsThenSpace l = true) :
    ∃ c ∈ l, c.isDigit = true := by
  cases l with
  | nil => simp [digitsThenSpace] at h
  | cons c rest =>
      rw [digitsThenSpace] at h
      rw [Bool.and_eq_true] at h
      exact ⟨c, List.mem_cons_self c rest, h.1⟩

/-- `/\d+/` matches any string holding a digit. -/
theorem firstDigitRun_isSome_of_digit :
    ∀ {l : List Char}, (∃ c ∈ l, c.isDigit = true) → (firstDigitRun l).isSome = true := by
  intro l h
  induction l with
  | nil => simp at h
  | cons a rest ih =>
      rw [firstDigitRun]
      by_cases ha : a.isDigit
      · simp [ha]
      · simp only [ha, Bool.false_eq_true, if_false]
        obtain ⟨c, hc, hcd⟩ := h
        rcases List.mem_cons.mp hc with rfl | hmem
        · exact absurd hcd ha
        · exact ih ⟨c, hmem, hcd⟩

/-- Every roster entry (filtered through `/^\d+\s/` on its trimmed text)
yields a seat number. -/
theorem roster_number_isSome {snap : Snapshot} {el : Element}
    (h : el ∈ allPlayersOf snap) : (getPlayerNumber (some el)).isSome = true := by
  rw [allPlayersOf, List.mem_filter] at h
  have hdig := digitsThenSpace_has_digit h.2
  obtain ⟨c, hc, hcd⟩ := hdig
  have : (firstDigitRun el.text.data).isSome = true :=
    firstDigitRun_isSome_of_digit ⟨c, mem_of_mem_trimChars hc, hcd⟩
  simp only [getPlayerNumber, firstNumberMatch]
  cases hfd : firstDigitRun el.text.data with
  | none => rw [hfd] at this; simp at this
  | some run => simp

/-- Couple rows come from the roster. -/
theorem nonMeLovers_mem_allPlayers {snap : Snapshot} {name : String} {el : Element}
    (h : el ∈ nonMeLovers snap name) : el ∈ allPlayersOf snap := by
  rw [nonMeLovers, List.mem_filter] at h
  rw [loverElementsOf, List.mem_filter] at h
  exact h.1.1

/-- `getRoleFromImage` never produces the tag `'Unknown'`: a falsy filename
short-circuits to `null` and every table value (and the `'Other'` fallback)
differs from `'Unknown'`. -/
theorem getRoleFromImage_ne_unknown (o : Option String) :
    getRoleFromImage o ≠ some "Unknown" := by
  match o with
  | none => simp [getRoleFromImage]
  | some s =>
      by_cases hs : s = ""
      · simp [getRoleFromImage, hs]
      · simp only [getRoleFromImage, hs, if_false, ne_eq, Option.some.injEq]
        simp only [getPlayerRole, hs, if_false]
        simp only [roleMapTable, roleLookupLoop]
        split_ifs <;> decide

/-- C1, counterexample.  On a snapshot whose paired roster row carries only
the cupid sticker, the extractor parses the partner's seat (`'3'`) but
records a `null` partner role — `coupleRole1` and `coupleNumber1` are not
both-null-or-both-set, refuting the claimed equivalence (and the role is
`null`, not `'Unknown'`). -/
theorem c1_counterexample :
    (buildPlayerInfo exSnapRoleGap "Hero").coupleNumber1 = some "3" ∧
    (buildPlayerInfo exSnapRoleGap "Hero").coupleRole1 = none := by
  decide

/-- C1, amended.  For every snapshot and player name, a `null` partner seat
forces a `null` partner role (a missing partner leaves both fields `null`),
but not conversely: the partner role is `null` — never the tag `'Unknown'` —
whenever the role-icon walk fails, even though the seat may be set. -/
theorem c1_amended_couple_fields (snap : Snapshot) (name : String) :
    ((buildPlayerInfo snap name).coupleNumber1 = none →
      (buildPlayerInfo snap name).coupleRole1 = none) ∧
    ((buildPlayerInfo snap name).coupleNumber2 = none →
      (buildPlayerInfo snap name).coupleRole2 = none) ∧
    (buildPlayerInfo snap name).coupleRole1 ≠ some "Unknown" ∧
    (buildPlayerInfo snap name).coupleRole2 ≠ some "Unknown" := by
  refine ⟨?_, ?_, getRoleFromImage_ne_unknown _, getRoleFromImage_ne_unknown _⟩
  · intro hnum
    simp only [buildPlayerInfo, coupleElementsOf, coupleRoleImages, coupleImageSets] at *
    cases hL : nonMeLovers snap name with
    | nil => simp [hL, padTo2, getRoleFromImage]
    | cons a rest =>
        exfalso
        have ha : a ∈ allPlayersOf snap :=
          nonMeLovers_mem_allPlayers (hL ▸ List.mem_cons_self a rest)
        have hsome := roster_number_isSome ha
        cases rest with
        | nil =>
            rw [hL] at hnum
            simp only [padTo2] at hnum
            simp at hnum
            rw [hnum] at hsome
            simp at hsome
        | cons b rest2 =>
            rw [hL] at hnum
            simp only [padTo2, List.map_cons] at hnum
            simp at hnum
            rw [hnum] at hsome
            simp at hsome
  · intro hnum
    simp only [buildPlayerInfo, coupleElementsOf, coupleRoleImages, coupleImageSets] at *
    cases hL : nonMeLovers snap name with
    | nil => simp [hL, padTo2, getRoleFromImage]
    | cons a rest =>
        cases rest with
        | nil => simp [hL, padTo2, getRoleFromImage]
        | cons b rest2 =>
            exfalso
            have hb : b ∈ allPlayersOf snap :=
              nonMeLovers_mem_allPlayers
                (hL ▸ List.mem_cons_of_mem a (List.mem_cons_self b rest2))
            have hsome := roster_number_isSome hb
            rw [hL] at hnum
            simp only [padTo2, List.map_cons] at hnum
            simp at hnum
            rw [hnum] at hsome
            simp at hsome

/-- C1, witness for the amended theorem at a concrete snapshot. -/
theorem c1_amended_witness :
    (buildPlayerInfo exSnapRoleGap "Hero").coupleNumber2 = none ∧
    (buildPlayerInfo exSnapRoleGap "Hero").coupleRole2 = none :=
  ⟨by decide, (c1_amended_couple_fields exSnapRoleGap "Hero").2.1 (by decide)⟩

/-- `shooterAction` never issues an outermost-click: its requests are the
marker-count wait, the bullet-icon click and the shoot-icon click
(fuel-indexed induction over the retry recursion). -/
theorem shooter_no_outermost_click (snap : Snapshot) (pi : PlayerInfo)
    (couples : List (Option Element)) (allP : List Element) :
    ∀ (k n : Nat) (e : Element), 5 - n ≤ k →
      Act.clickOutermost e ∉ shooterAction snap pi couples allP n := by
  intro k
  induction k with
  | zero =>
      intro n e hn
      have h4 : n > 4 := by omega
      rw [shooterAction]
      simp [h4]
  | succ k ih =>
      intro n e hn
      by_cases h4 : n > 4
      · rw [shooterAction]; simp [h4]
      · rw [shooterAction, dif_neg h4]
        cases hgo : gameIsOver snap with
        | true => simp [hgo]
        | false =>
            simp only [hgo, Bool.false_eq_true, if_false]
            cases hfind : allP.find? (fun el =>
                el.images.any (fun src => regexImgTest "vote_day_selected" src)
                && !(couples.contains (some el))
                && !(strContains el.text pi.name)) with
            | some target => simp [hfind]
            | none =>
                simp only [hfind, List.mem_cons, not_or]
                refine ⟨by simp, by simp, ?_⟩
                exact ih (n + 1) e (by omega)

/-- C2, counterexample.  Wolf-coupled day vote with the pairing marker
absent: the handler outermost-clicks the WOLF partner's row (partner 1,
whose role is in `WOLF_ROLES`) and never the non-wolf partner's row,
refuting the claim that the vote lands on the non-wolf partner. -/
theorem c2_counterexample :
    inGameDay exSnapInGame exPiWolfCoupled [some exWolfRow, some exVillagerRow] [] []
      = [Act.clickOutermost exWolfRow] ∧
    Act.clickOutermost exVillagerRow ∉
      inGameDay exSnapInGame exPiWolfCoupled [some exWolfRow, some exVillagerRow] [] [] := by
  decide

/-- C2, amended.  In the day phase, when the player is wolf-coupled and the
already-voted-for-pair marker is absent from the own image sets, the first
request is an outermost-click on `coupleElements[0]` when partner 1's role
is a wolf role and on `coupleElements[1]` otherwise — i.e. the vote lands on
the WOLF partner's roster row (when exactly one partner is a wolf), not on
the non-wolf partner's; moreover that row is the target of every
outermost-click the handler issues, so no day vote is cast on the non-wolf
partner's row. -/
theorem c2_amended_vote_on_wolf_partner (snap : Snapshot) (pi : PlayerInfo)
    (couples : List (Option Element)) (imgs : List (List String))
    (allP : List Element) (target : Element)
    (hover : gameIsOver snap = false)
    (hcoupled : (isWolfRoleOpt pi.coupleRole1 || isWolfRoleOpt pi.coupleRole2) = true)
    (hmarker : (imgs.any fun imgSet => imgSet.any fun img => strContains img "cupid") = false)
    (htarget : (if isWolfRoleOpt pi.coupleRole1
                then (couples[0]?).join else (couples[1]?).join) = some target) :
    (∃ tail, inGameDay snap pi couples imgs allP = Act.clickOutermost target :: tail) ∧
    (∀ e, Act.clickOutermost e ∈ inGameDay snap pi couples imgs allP → e = target) := by
  simp only [inGameDay, hover, Bool.false_eq_true, if_false, hcoupled, Bool.not_true,
    hmarker, Bool.not_false, if_true, htarget]
  refine ⟨⟨_, rfl⟩, ?_⟩
  intro e he
  rcases List.mem_cons.mp he with heq | hmem
  · injection heq
  · exfalso
    by_cases hp : pi.role = "Priest"
    · rw [if_pos hp] at hmem
      rcases List.mem_cons.mp hmem with heq2 | hmem2
      · cases heq2
      · revert hmem2
        cases allP.find? (fun p =>
            p.images.any fun src => regexImgTest "priest_holy_water" src) <;> simp
    · rw [if_neg hp] at hmem
      by_cases hs : pi.role = "Shooter"
      · rw [if_pos hs] at hmem
        exact shooter_no_outermost_click snap pi couples allP 3 2 e (by omega) hmem
      · rw [if_neg hs] at hmem
        simp at hmem

/-- C2, witness for the amended theorem. -/
theorem c2_amended_witness :
    ∃ tail, inGameDay exSnapInGame exPiWolfCoupled [some exWolfRow, some exVillagerRow] [] []
      = Act.clickOutermost exWolfRow :: tail :=
  (c2_amended_vote_on_wolf_partner exSnapInGame exPiWolfCoupled
    [some exWolfRow, some exVillagerRow] [] [] exWolfRow
    (by decide) (by decide) (by decide) (by decide)).1

/-- C3.  If the game-over predicate holds on the snapshot a phase handler
is entered with, both `inGameDay` and `inGameNight` return with an empty
request trace — in particular no click and no chat write is issued, for
every role and argument combination. -/
theorem c3_game_over_abort (snap : Snapshot) (pi : PlayerInfo)
    (couples : List (Option Element)) (imgs : List (List String))
    (allP : List Element) (h : gameIsOver snap = true) :
    inGameDay snap pi couples imgs allP = [] ∧ inGameNight snap pi couples allP = [] := by
  constructor
  · simp [inGameDay, h]
  · simp [inGameNight, h]

/-- C3, witness on a finished-game snapshot. -/
theorem c3_witness :
    inGameDay exSnapVictory exPiWolf7 [] [] [] = [] ∧
    inGameNight exSnapVictory exPiWolf7 [] [] = [] :=
  c3_game_over_abort exSnapVictory exPiWolf7 [] [] [] (by decide)

/-- C5.  Day phase, wolf not wolf-coupled: when the chat transcript already
mentions the own seat number as a 1–2 digit token, the handler issues
nothing at all; otherwise it writes the own seat number into the chat input
and clicks send, and nothing else. -/
theorem c5_wolf_idempotent_signal (snap : Snapshot) (pi : PlayerInfo)
    (couples : List (Option Element)) (imgs : List (List String))
    (allP : List Element) (n : String)
    (hover : gameIsOver snap = false)
    (hnc1 : isWolfRoleOpt pi.coupleRole1 = false)
    (hnc2 : isWolfRoleOpt pi.coupleRole2 = false)
    (hwolf : isWolfRole pi.role = true)
    (hnum : pi.number = some n) :
    (mentionedOwnNumber snap pi = true → inGameDay snap pi couples imgs allP = []) ∧
    (mentionedOwnNumber snap pi = false →
      inGameDay snap pi couples imgs allP
        = [Act.chatSet n, Act.clickByImage "icon_send"]) := by
  constructor
  · intro hm
    simp [inGameDay, hover, hnc1, hnc2, hwolf, hm]
  · intro hm
    simp [inGameDay, hover, hnc1, hnc2, hwolf, hm, setterStr, hnum]

/-- C5, witness: concrete transcripts with and without the own seat. -/
theorem c5_witness :
    inGameDay exSnapMention exPiWolf7 [] [] [] = [] ∧
    inGameDay exSnapNoMention exPiWolf7 [] [] []
      = [Act.chatSet "7", Act.clickByImage "icon_send"] :=
  ⟨(c5_wolf_idempotent_signal exSnapMention exPiWolf7 [] [] [] "7"
      (by decide) (by decide) (by decide) (by decide) (by decide)).1 (by decide),
   (c5_wolf_idempotent_signal exSnapNoMention exPiWolf7 [] [] [] "7"
      (by decide) (by decide) (by decide) (by decide) (by decide)).2 (by decide)⟩

/-- The first-match loop agrees with `List.find?` over the key predicate. -/
theorem roleLookupLoop_eq_find (f : String) :
    ∀ l : List (String × String),
      roleLookupLoop f l = ((l.find? fun kv => strContains f kv.1).map Prod.snd).getD "Other" := by
  intro l
  induction l with
  | nil => simp [roleLookupLoop]
  | cons kv rest ih =>
      by_cases h : strContains f kv.1
      · simp [roleLookupLoop, List.find?, h]
      · simp only [Bool.not_eq_true] at h
        simp [roleLookupLoop, List.find?, h, ih]

/-- No table lookup result is the tag `'Unknown'`. -/
theorem roleLookupLoop_table_ne_unknown (f : String) :
    roleLookupLoop f roleMapTable ≠ "Unknown" := by
  simp only [roleMapTable, roleLookupLoop]
  split_ifs <;> decide

/-- C7.  `getPlayerRole` is `'Unknown'` exactly on a missing or empty
filename; on any other filename it returns the value of the first table key
(in insertion order) contained in the filename, falling back to `'Other'`
when no key matches. -/
theorem c7_role_classifier (o : Option String) :
    (getPlayerRole o = "Unknown" ↔ o = none ∨ o = some "") ∧
    (∀ f, o = some f → f ≠ "" →
      getPlayerRole o
        = ((roleMapTable.find? fun kv => strContains f kv.1).map Prod.snd).getD "Other") := by
  constructor
  · constructor
    · intro h
      match o with
      | none => exact Or.inl rfl
      | some f =>
          by_cases hf : f = ""
          · exact Or.inr (by rw [hf])
          · exfalso
            simp only [getPlayerRole, hf, if_false] at h
            exact roleLookupLoop_table_ne_unknown f h
    · rintro (rfl | rfl) <;> simp [getPlayerRole]
  · rintro f rfl hf
    simp only [getPlayerRole, hf, if_false]
    exact roleLookupLoop_eq_find f roleMapTable

/-- C7, witness: the underscore spelling hits the second key, not `'wolf'`;
the empty filename is `'Unknown'`. -/
theorem c7_witness :
    getPlayerRole (some "") = "Unknown" ∧
    getPlayerRole (some "junior_werewolf.png") = "Junior Werewolf" :=
  ⟨(c7_role_classifier (some "")).1.mpr (Or.inr rfl),
   ((c7_role_classifier (some "junior_werewolf.png")).2 _ rfl (by decide)).trans (by decide)⟩

/-- C8.  `isDay` holds exactly when the extracted timer label is the string
`'Discussion'` or `'Voting'`; `isNight` exactly when it is the empty string;
on any other label — including the `null` of a failed extraction — both are
false, and no snapshot satisfies both. -/
theorem c8_day_night_labels (snap : Snapshot) :
    (isDay snap = true ↔
      getLabelBeforeTime snap = some "Discussion" ∨ getLabelBeforeTime snap = some "Voting") ∧
    (isNight snap = true ↔ getLabelBeforeTime snap = some "") ∧
    ¬(isDay snap = true ∧ isNight snap = true) := by
  cases h : getLabelBeforeTime snap with
  | none => simp [isDay, isNight, h]
  | some l =>
      refine ⟨by simp [isDay, h], by simp [isNight, h], ?_⟩
      rintro ⟨hd, hn⟩
      simp only [isDay, h, Bool.or_eq_true, beq_iff_eq] at hd
      simp only [isNight, h, beq_iff_eq] at hn
      rcases hd with rfl | rfl <;> simp at hn

/-- C8, witness: a bare `25s` timer div yields the empty label, hence
night. -/
theorem c8_witness : isNight exSnapRoleGap = true :=
  (c8_day_night_labels exSnapRoleGap).2.1.mpr (by decide)

/-- The vote-marker counts waited for by `shooterAction` starting at
threshold `n` form a prefix of `n, n+1, …, 4` (strong-induction fuel `k`). -/
theorem shooter_waits_initial_segment (snap : Snapshot) (pi : PlayerInfo)
    (couples : List (Option Element)) (allP : List Element) :
    ∀ (k n : Nat), 5 - n ≤ k →
      List.IsPrefix ((shooterAction snap pi couples allP n).filterMap getWaitCount)
        (List.range' n (5 - n)) := by
  intro k
  induction k with
  | zero =>
      intro n hn
      have h4 : n > 4 := by omega
      rw [shooterAction]
      simp [h4]
  | succ k ih =>
      intro n hn
      by_cases h4 : n > 4
      · rw [shooterAction]; simp [h4]
      · have h5 : 5 - n = (5 - (n + 1)) + 1 := by omega
        rw [shooterAction]
        rw [dif_neg h4]
        cases hgo : gameIsOver snap with
        | true =>
            simp only [hgo, if_true, List.filterMap_cons, getWaitCount]
            rw [h5, List.range'_succ]
            exact ⟨_, rfl⟩
        | false =>
            simp only [hgo, Bool.false_eq_true, if_false, List.filterMap_cons, getWaitCount]
            cases hfind : allP.find? (fun el =>
                el.images.any (fun src => regexImgTest "vote_day_selected" src)
                && !(couples.contains (some el))
                && !(strContains el.text pi.name)) with
            | some target =>
                simp only [hfind, List.filterMap_cons, getWaitCount, List.filterMap_nil]
                rw [h5, List.range'_succ]
                exact ⟨_, rfl⟩
            | none =>
                simp only [hfind]
                have ihn := ih (n + 1) (by omega)
                rw [h5, List.range'_succ]
                exact List.cons_prefix_cons.mpr ⟨rfl, ihn⟩

/-- C9.  `shooterAction` is total (the definition carries its termination
measure `5 - voteMarkersToFind`); any threshold above the cap of 4 returns
at once with no wait or click; and from the initial threshold 2 the waited
marker counts are a prefix of `[2, 3, 4]` — the threshold rises by exactly 1
per retry and at most three recursive retries perform a wait. -/
theorem c9_shooter_bounded (snap : Snapshot) (pi : PlayerInfo)
    (couples : List (Option Element)) (allP : List Element) :
    (∀ n, n > 4 → shooterAction snap pi couples allP n = []) ∧
    List.IsPrefix ((shooterAction snap pi couples allP 2).filterMap getWaitCount) [2, 3, 4] ∧
    ((shooterAction snap pi couples allP 2).filterMap getWaitCount).length ≤ 3 := by
  have hpre : List.IsPrefix ((shooterAction snap pi couples allP 2).filterMap getWaitCount)
      (List.range' 2 (5 - 2)) := shooter_waits_initial_segment snap pi couples allP (5 - 2) 2 le_rfl
  have hr : List.range' 2 (5 - 2) = [2, 3, 4] := by decide
  rw [hr] at hpre
  refine ⟨?_, hpre, ?_⟩
  · intro n hn
    rw [shooterAction]
    simp [hn]
  · have := hpre.length_le
    simpa using this

/-- C9, witness: above the cap the search returns immediately. -/
theorem c9_witness : shooterAction exSnapInGame exPiShooter [] [] 5 = [] :=
  (c9_shooter_bounded exSnapInGame exPiShooter [] []).1 5 (by decide)

/-- A run of main-loop cycles fires at most one reload (the run ends at the
first one: `location.reload()` replaces the page and its script state). -/
theorem runDwell_length (cycles : List (Snapshot × Nat)) :
    ∀ ts : Option Nat, (runDwell ts cycles).length ≤ 1 := by
  induction cycles with
  | nil => intro ts; simp [runDwell]
  | cons c rest ih =>
      intro ts
      rw [runDwell]
      by_cases h : (mainDwell ts c.1 c.2).2
      · simp [h]
      · simp only [h, Bool.false_eq_true, if_false]
        exact ih _

/-- C4.  Per main-loop cycle: the dwell timestamp is cleared whenever the
cycle classifies any non-`LOBBY` state; a reload fires exactly when the
cycle classifies `LOBBY` and the stored dwell timestamp is strictly more
than `LOBBY_TIMEOUT` (2 minutes) old; and over any run of consecutive
cycles at most one reload fires, because a fired reload replaces the page
(and its script state) rather than repeating on later cycles. -/
theorem c4_lobby_dwell (cycles : List (Snapshot × Nat)) (ts : Option Nat)
    (snap : Snapshot) (now : Nat) :
    (runDwell none cycles).length ≤ 1 ∧
    (determineGameState snap ≠ GameState.LOBBY → (mainDwell ts snap now).1 = none) ∧
    ((mainDwell ts snap now).2 = true ↔
      determineGameState snap = GameState.LOBBY ∧
      ∃ t0, ts = some t0 ∧ LOBBY_TIMEOUT < now - t0) := by
  refine ⟨runDwell_length cycles none, ?_, ?_⟩
  · intro h
    simp [mainDwell, h]
  · constructor
    · intro h
      by_cases hl : determineGameState snap = GameState.LOBBY
      · refine ⟨hl, ?_⟩
        simp only [mainDwell, hl, if_true] at h
        cases hts : ts with
        | none => rw [hts] at h; simp at h
        | some t0 =>
            rw [hts] at h
            by_cases hto : LOBBY_TIMEOUT < now - t0
            · exact ⟨t0, rfl, hto⟩
            · simp [hto] at h
      · simp [mainDwell, hl] at h
    · rintro ⟨hl, t0, rfl, hto⟩
      simp [mainDwell, hl, hto]

/-- C4, witness: three lobby cycles, the second past the ceiling — a single
reload fires. -/
theorem c4_witness :
    (runDwell none [(exSnapLobby, 0), (exSnapLobby, 120001), (exSnapLobby, 240002)]).length ≤ 1 ∧
    (mainDwell (some 0) exSnapLobby 120001).2 = true :=
  ⟨(c4_lobby_dwell [(exSnapLobby, 0), (exSnapLobby, 120001), (exSnapLobby, 240002)]
      (some 0) exSnapLobby 120001).1,
   (c4_lobby_dwell [] (some 0) exSnapLobby 120001).2.2.mpr
     ⟨by decide, 0, rfl, by decide⟩⟩

/-- With a strictly advancing poll clock, `timeout + 1` polls always
resolve the promise (the loop cannot run past the timeout). -/
theorem wfcAux_resolves {A : Type} (cond : Nat → Option A) (cancel : List String)
    (pageText : Nat → String) (time : Nat → Nat) (timeout : Nat)
    (hmono : ∀ j, time j < time (j + 1)) :
    ∀ fuel k, 0 < fuel → timeout < time k + fuel →
      (wfcAux cond cancel pageText time timeout fuel k).isSome = true := by
  intro fuel
  induction fuel with
  | zero => intro k h0 _; omega
  | succ f ih =>
      intro k _ hlt
      simp only [wfcAux]
      cases hck : cond k with
      | some r => simp
      | none =>
          simp only
          by_cases hc : (0 < cancel.length && cancelHit cancel (pageText k)) = true
          · simp [hc]
          · simp only [hc, Bool.false_eq_true, if_false]
            by_cases ht : timeout ≤ time k
            · simp [ht]
            · have hkk := hmono k
              have hf : 0 < f := by omega
              simp only [ht, if_false]
              exact ih (k + 1) hf (by omega)

/-- An always-false predicate can only resolve to `null`. -/
theorem wfcAux_false_pred_none {A : Type} (cancel : List String)
    (pageText : Nat → String) (time : Nat → Nat) (timeout : Nat) :
    ∀ fuel k x,
      wfcAux (A := A) (fun _ => none) cancel pageText time timeout fuel k = some x →
      x.1 = none := by
  intro fuel
  induction fuel with
  | zero => intro k x hx; simp [wfcAux] at hx
  | succ f ih =>
      intro k x hx
      simp only [wfcAux] at hx
      by_cases hc : (0 < cancel.length && cancelHit cancel (pageText k)) = true
      · rw [if_pos hc] at hx
        cases hx; rfl
      · rw [if_neg hc] at hx
        by_cases ht : timeout ≤ time k
        · rw [if_pos ht] at hx
          cases hx; rfl
        · rw [if_neg ht] at hx
          exact ih (k + 1) x hx

/-- When no cancel text ever matches and the predicate stays false, the
promise resolves only at a poll whose elapsed time reaches the timeout. -/
theorem wfcAux_timeout_bound {A : Type} (cancel : List String)
    (pageText : Nat → String) (time : Nat → Nat) (timeout : Nat)
    (hnc : ∀ k, cancelHit cancel (pageText k) = false) :
    ∀ fuel k r j,
      wfcAux (A := A) (fun _ => none) cancel pageText time timeout fuel k = some (r, j) →
      timeout ≤ time j := by
  intro fuel
  induction fuel with
  | zero => intro k r j hx; simp [wfcAux] at hx
  | succ f ih =>
      intro k r j hx
      simp only [wfcAux] at hx
      rw [if_neg (by simp [hnc k])] at hx
      by_cases ht : timeout ≤ time k
      · rw [if_pos ht] at hx
        cases hx
        exact ht
      · rw [if_neg ht] at hx
        exact ih (k + 1) r j hx

/-- C6, counterexample.  With the cancel list `["", "Continue"]` and a page
containing `"Continue"`, some cancel text IS contained in the current page
text, yet the wait does not resolve at the first poll: `find` returns the
empty string first (it is contained in every page text) and the source's
`if (foundCancelText)` truthiness test is falsy, so cancellation is
disabled and (timeout 1000, 200 ms polls) the always-false predicate
resolves only at poll 5, once the timeout has elapsed — refuting prompt
first-poll resolution as claimed. -/
theorem c6_counterexample :
    ((normalizeCancel (CancelArg.several ["", "Continue"])).any
        fun t => strContains "Continue here" t) = true ∧
    waitForCondition (A := Nat) (fun _ => none) 1000
        (CancelArg.several ["", "Continue"]) (fun _ => "Continue here")
        (fun k => 200 * k) = some (none, 5) ∧
    waitForCondition (A := Nat) (fun _ => none) 1000
        (CancelArg.several ["", "Continue"]) (fun _ => "Continue here")
        (fun k => 200 * k) ≠ some (none, 0) := by
  decide

/-- C6, amended.  For every cancel-condition argument, page, strictly
advancing poll clock and timeout, `waitForCondition` with an always-false
predicate resolves (never throws or hangs) and its value is `null`.  It
resolves at the very first poll — before a positive timeout has elapsed —
when the first normalized cancel text contained in the page text is
nonempty (the source tests the truthiness of the found text, and a single
empty-string cancel argument normalizes away entirely); and when no poll
ever finds a truthy cancel text it resolves only once the elapsed time has
reached the timeout. -/
theorem c6_wait_always_false_null (A : Type) (cancel : CancelArg)
    (pageText : Nat → String) (time : Nat → Nat) (timeout : Nat)
    (hmono : ∀ j, time j < time (j + 1)) (h0 : time 0 = 0) :
    (∃ k, waitForCondition (A := A) (fun _ => none) timeout cancel pageText time
        = some (none, k)) ∧
    (cancelHit (normalizeCancel cancel) (pageText 0) = true →
      waitForCondition (A := A) (fun _ => none) timeout cancel pageText time
        = some (none, 0) ∧ (0 < timeout → time 0 < timeout)) ∧
    ((∀ k, cancelHit (normalizeCancel cancel) (pageText k) = false) →
      ∀ k, waitForCondition (A := A) (fun _ => none) timeout cancel pageText time
          = some (none, k) →
        timeout ≤ time k) := by
  refine ⟨?_, ?_, ?_⟩
  · have hres := wfcAux_resolves (A := A) (fun _ => none) (normalizeCancel cancel)
      pageText time timeout hmono (timeout + 1) 0 (by omega) (by omega)
    obtain ⟨x, hx⟩ := Option.isSome_iff_exists.mp hres
    have hnone := wfcAux_false_pred_none (A := A) (normalizeCancel cancel)
      pageText time timeout (timeout + 1) 0 x hx
    refine ⟨x.2, ?_⟩
    rw [waitForCondition, hx]
    cases x with
    | mk r j => simp only at hnone; rw [hnone]
  · intro hc
    have hlen : 0 < (normalizeCancel cancel).length := by
      rw [cancelHit] at hc
      cases hfind : (normalizeCancel cancel).find? (fun t => strContains (pageText 0) t) with
      | none => rw [hfind] at hc; simp at hc
      | some t =>
          exact List.length_pos.mpr
            (List.ne_nil_of_mem (List.mem_of_find?_eq_some hfind))
    constructor
    · rw [waitForCondition]
      simp only [wfcAux]
      rw [if_pos (by simp [hlen, hc])]
    · intro hto
      omega
  · intro hnc k hk
    exact wfcAux_timeout_bound (A := A) (normalizeCancel cancel) pageText time timeout
      hnc (timeout + 1) 0 none k hk

/-- C6, witness for the amended theorem: a truthy cancel text on the page
from the start resolves to `null` at the first poll. -/
theorem c6_witness :
    waitForCondition (A := Nat) (fun _ => none) 30000 (CancelArg.single "Continue")
      (fun _ => "Continue to next") (fun k => 200 * k) = some (none, 0) :=
  ((c6_wait_always_false_null Nat (CancelArg.single "Continue")
      (fun _ => "Continue to next") (fun k => 200 * k) 30000
      (fun j => by show 200 * j < 200 * (j + 1); omega) rfl).2.1 (by decide)).1

/-- C10.  The predicate is evaluated before the cancel check on every poll:
a truthy predicate at the first poll makes the wait resolve with the
predicate's result even when a cancel text is simultaneously present in the
page text. -/
theorem c10_predicate_first (A : Type) (cond : Nat → Option A) (cancel : CancelArg)
    (pageText : Nat → String) (time : Nat → Nat) (timeout : Nat) (r : A)
    (hcond : cond 0 = some r)
    (_hcancel : ((normalizeCancel cancel).any fun t => strContains (pageText 0) t) = true) :
    waitForCondition cond timeout cancel pageText time = some (some r, 0) := by
  rw [waitForCondition]
  simp only [wfcAux, hcond]

/-- C10, witness. -/
theorem c10_witness :
    waitForCondition (fun _ => some (42 : Nat)) 1000 (CancelArg.single "x")
      (fun _ => "x here") (fun k => k) = some (some 42, 0) :=
  c10_predicate_first Nat (fun _ => some 42) (CancelArg.single "x")
    (fun _ => "x here") (fun k => k) 1000 42 rfl (by decide)
